import Mathlib

/-!
Shallow embedding of `src/terminal/src/claude_pty_wrapper.py`, the pty proxy
of the Claude-Autopilot repository.  The multiplexing loop of `main`
(lines 87-160) is modelled as a step function over an explicit state; each
iteration of the loop consumes one readiness event (child output readable,
external stdin readable, or a select timeout).  Bytes are `Nat`s, byte
strings are `List Nat`.  The finalization block (lines 161-174) and the
process exit status are modelled separately.
-/

/-- Bytes of an ASCII `str`/`bytes` literal of the source, as a list of
byte values. -/
def strBytes (s : String) : List Nat :=
  s.toList.map Char.toNat

/-- Marker 1 of the permission prompt: line 103 of the source. -/
def marker1 : List Nat := strBytes "Bypass Permissions mode"

/-- Marker 2 of the permission prompt: line 104 of the source. -/
def marker2 : List Nat := strBytes "1. No, exit"

/-- Marker 3 of the permission prompt: line 105 of the source. -/
def marker3 : List Nat := strBytes "2. Yes, I accept"

/-- The auto-acceptance sequence `b"2\n"` written at line 109. -/
def acceptSeq : List Nat := strBytes "2\n"

/-- `containsSub hay needle` holds when `needle` occurs contiguously in
`hay` - the `needle in hay` test of Python. -/
def containsSub (hay needle : List Nat) : Bool :=
  hay.tails.any (fun t => needle.isPrefixOf t)

/-- Lines 102-105: the buffer is decoded (UTF-8, errors ignored) and the
three marker substrings are tested with `in`.  All three markers are pure
ASCII, so over the byte stream this is containment of the marker byte
strings in the buffer. -/
def detectPrompt (buf : List Nat) : Bool :=
  containsSub buf marker1 && containsSub buf marker2 && containsSub buf marker3

/-- Lines 114-116: `if len(output_buffer) > 2048: output_buffer =
output_buffer[-1024:]` - keep only the most recent 1024 bytes once the
buffer exceeds 2048 bytes. -/
def trimBuffer (b : List Nat) : List Nat :=
  if 2048 < b.length then b.drop (b.length - 1024) else b

/-- Lines 118-129: non-blocking `output_queue.put(data)`.  It succeeds
directly when the queue (capacity 1000, line 64 `maxsize=1000`) has
room.  On `queue.Full` the producer first logs (line 123, blocking
stderr I/O during which the dispatcher thread keeps draining the queue),
then calls `get_nowait` and retries the put.  `k` is the number of
entries the dispatcher consumed in that window: if it drained the queue
entirely, `get_nowait` raises `Empty`, the bare `except` at lines
128-129 swallows it, and the chunk is silently discarded; otherwise the
oldest remaining entry is removed and the put is retried successfully.
(Outside this race window the dispatcher's consumption is not tracked:
the modelled queue is the producer-side upper bound.) -/
def enqueuePut (q : List (List Nat)) (d : List Nat) (k : Nat) : List (List Nat) :=
  if q.length < 1000 then q ++ [d]
  else if (q.drop k).isEmpty then q.drop k
  else (q.drop k).drop 1 ++ [d]

/-- Whether the put of lines 119-129 actually admitted the chunk:
directly when the queue had room, or via the retried put after a
successful `get_nowait`; not admitted when the dispatcher had drained
the queue and `get_nowait` raised `Empty`. -/
def putAdmits (q : List (List Nat)) (k : Nat) : Bool :=
  if q.length < 1000 then true else !(q.drop k).isEmpty

/-- A write to the child's master handle: either the auto-response of the
prompt detector (line 109) or forwarded external input (line 147). -/
inductive ChildWrite where
  | auto (bytes : List Nat)
  | fwd (bytes : List Nat)
  deriving DecidableEq, Repr

/-- Number of auto-response writes in a write log. -/
def countAuto (l : List ChildWrite) : Nat :=
  l.countP (fun w => match w with | .auto _ => true | .fwd _ => false)

/-- State of the multiplexing loop of `main`: the immutable
`skip_permissions` flag (line 21), `output_buffer` (line 60),
`permission_prompt_detected` (line 61), the `output_queue` contents
(line 64, front = oldest), a log of every chunk ever admitted to the
queue, a log of every write to the child's master handle, and a count of
`log_debug` diagnostics emitted from inside the loop. -/
structure LoopState where
  skipPermissions : Bool
  outputBuffer : List Nat
  promptDetected : Bool
  outputQueue : List (List Nat)
  enqueuedLog : List (List Nat)
  childWrites : List ChildWrite
  diags : Nat
  deriving DecidableEq, Repr

/-- The loop state right before the first iteration (lines 60-64). -/
def initState (skip : Bool) : LoopState :=
  { skipPermissions := skip
    outputBuffer := []
    promptDetected := false
    outputQueue := []
    enqueuedLog := []
    childWrites := []
    diags := 0 }

/-- A loop state in which the trigger has already fired: `initState true`
with `permission_prompt_detected` set (line 106). -/
def firedState : LoopState :=
  { initState true with promptDetected := true }

/-- Lines 95-129: handling of a successful `os.read(master, 4096)`.
An empty read falls through the `if data:` guard and does nothing.
Otherwise the chunk is appended to `output_buffer` (line 98); if
`skip_permissions` is set, no prompt has fired yet and the three markers
are all present, the proxy fires: it logs, writes `b"2\n"` to the child,
clears the buffer and `continue`s (lines 101-112), so the chunk is not
enqueued.  Otherwise the buffer is trimmed (lines 114-116) and the chunk
is enqueued with drop-oldest overflow (lines 118-129, one diagnostic on
overflow); `k` is the dispatcher-interference oracle of `enqueuePut`. -/
def handleChildData (s : LoopState) (data : List Nat) (k : Nat) : LoopState :=
  if data.isEmpty then s
  else
    let buf := s.outputBuffer ++ data
    if s.skipPermissions && !s.promptDetected && detectPrompt buf then
      { s with promptDetected := true
               diags := s.diags + 1
               childWrites := s.childWrites ++ [ChildWrite.auto acceptSeq]
               outputBuffer := [] }
    else
      { s with outputBuffer := trimBuffer buf
               outputQueue := enqueuePut s.outputQueue data k
               enqueuedLog := s.enqueuedLog
                 ++ (if putAdmits s.outputQueue k then [data] else [])
               diags := s.diags + (if s.outputQueue.length < 1000 then 0 else 1) }

/-- Outcome of one `os.read` on the master side: data (possibly empty) or
an `OSError` with an errno. -/
inductive ReadResult where
  | data (d : List Nat)
  | err (errno : Nat)
  deriving DecidableEq, Repr

/-- Lines 92-136: the child-output branch of the loop.  Returns the new
state and whether the loop `break`s.  errno 5 (EIO) breaks the loop;
errno 11 (EAGAIN) is passed over silently; any other errno is logged and
the loop continues.  `k` is the dispatcher-interference oracle of
`enqueuePut`. -/
def stepChildRead (s : LoopState) (k : Nat) : ReadResult → LoopState × Bool
  | .data d => (handleChildData s d k, false)
  | .err e =>
    if e = 5 then (s, true)
    else if e = 11 then (s, false)
    else ({ s with diags := s.diags + 1 }, false)

/-- Outcome of one `os.write(master, data[written:])` attempt in the
stdin-forwarding loop (lines 145-154): either `n` bytes were accepted or
an `OSError` with an errno was raised. -/
inductive WriteOutcome where
  | wrote (n : Nat)
  | werr (errno : Nat)
  deriving DecidableEq, Repr

/-- Lines 143-154: `written = 0; while written < len(data): ...`.  Each
successful `os.write` advances by the number of bytes accepted; errno 11
(EAGAIN) sleeps 10ms and retries the remaining suffix; any other errno is
re-raised, abandoning the remaining bytes (caught at line 155).  Driven
by a finite schedule of write outcomes; returns the slices actually
written in order, the bytes never written, and whether a non-EAGAIN error
aborted the loop. -/
def writeLoop (data : List Nat) : List WriteOutcome → List (List Nat) × List Nat × Bool
  | [] => ([], data, false)
  | o :: os =>
    if data.isEmpty then ([], [], false)
    else
      match o with
      | .wrote n =>
        let k := min n data.length
        let r := writeLoop (data.drop k) os
        (data.take k :: r.1, r.2.1, r.2.2)
      | .werr e =>
        if e = 11 then writeLoop data os
        else ([], data, true)

/-- Sum of the byte counts accepted by the successful writes of a
schedule. -/
def totalWrote : List WriteOutcome → Nat
  | [] => 0
  | .wrote n :: os => n + totalWrote os
  | .werr _ :: os => totalWrote os

/-- A schedule whose only errors are EAGAIN (errno 11). -/
def noHardErr (outs : List WriteOutcome) : Bool :=
  outs.all fun o => match o with | .wrote _ => true | .werr e => e == 11

/-- Lines 138-159: the stdin branch.  An empty read falls through
`if data:`; otherwise the chunk is pushed through the write loop and the
written slices are appended to the child-write log.  A hard write error
propagates to line 155 and is logged. -/
def handleStdin (s : LoopState) (d : List Nat) (outs : List WriteOutcome) : LoopState :=
  if d.isEmpty then s
  else
    let r := writeLoop d outs
    { s with childWrites := s.childWrites ++ r.1.map ChildWrite.fwd
             diags := s.diags + (if r.2.2 then 1 else 0) }

/-- One readiness event of the select loop (line 90): child output
readable (with the read's outcome), stdin readable (with the read chunk
and the schedule of master-write outcomes), a stdin read error, or a
select timeout. -/
inductive Event where
  | childRead (r : ReadResult) (k : Nat)
  | stdinRead (d : List Nat) (outs : List WriteOutcome)
  | stdinErr (errno : Nat)
  | timeout
  deriving Repr

/-- One iteration of the loop body on one event; the Bool is whether the
loop breaks.  A stdin read error with errno 11 is passed over (line 156),
any other is logged (line 159) and the loop continues. -/
def stepEvent (s : LoopState) : Event → LoopState × Bool
  | .childRead r k => stepChildRead s k r
  | .stdinRead d outs => (handleStdin s d outs, false)
  | .stdinErr e =>
    if e = 11 then (s, false) else ({ s with diags := s.diags + 1 }, false)
  | .timeout => (s, false)

/-- The multiplexing loop over a finite trace of events, stopping early on
a break. -/
def runLoop (s : LoopState) : List Event → LoopState
  | [] => s
  | e :: es =>
    let p := stepEvent s e
    if p.2 then p.1 else runLoop p.1 es

/-- How the loop was exited: normal completion (`claude_process.poll()`
returned an exit status), `KeyboardInterrupt` (line 161), or any other
exception (line 164). -/
inductive ExitPath where
  | normalExit
  | interrupt
  | unexpectedError
  deriving DecidableEq, Repr

/-- One action of the shutdown code after the loop (lines 161-174). -/
inductive ShutAct where
  | terminateChild
  | putSentinel
  | joinWriter (timeoutSec : Nat)
  | closeMaster
  | waitChild
  | logExitCode
  deriving DecidableEq, Repr

/-- The `finally` block, lines 167-174: push the `None` sentinel, join the
writer thread with timeout 1s, close the master fd, wait for the child,
log its exit code. -/
def finallyActions : List ShutAct :=
  [ShutAct.putSentinel, ShutAct.joinWriter 1, ShutAct.closeMaster,
   ShutAct.waitChild, ShutAct.logExitCode]

/-- Lines 161-174: the shutdown actions performed on each exit path.  The
interrupt and exception handlers first call `claude_process.terminate()`;
the `finally` block then runs on every path. -/
def shutdownTrace : ExitPath → List ShutAct
  | .normalExit =>
    [ShutAct.putSentinel, ShutAct.joinWriter 1, ShutAct.closeMaster,
     ShutAct.waitChild, ShutAct.logExitCode]
  | .interrupt =>
    [ShutAct.terminateChild, ShutAct.putSentinel, ShutAct.joinWriter 1,
     ShutAct.closeMaster, ShutAct.waitChild, ShutAct.logExitCode]
  | .unexpectedError =>
    [ShutAct.terminateChild, ShutAct.putSentinel, ShutAct.joinWriter 1,
     ShutAct.closeMaster, ShutAct.waitChild, ShutAct.logExitCode]

/-- Observable outcome of the whole `main` once the loop has ended: the
process exit status and the child exit code carried by the final
diagnostic record (line 174). -/
structure MainOutcome where
  exitCode : Int
  diagChildCode : Int
  deriving DecidableEq, Repr

/-- The outcome of `main` for a given exit path and child exit code.
`main` (lines 19-174) contains no `sys.exit` after the loop: on every
modelled exit path the function simply returns after the `finally` block
(line 174), so the interpreter exits with status 0; the child's exit code
appears only in the final `log_debug` record. -/
def mainOutcome (_p : ExitPath) (childCode : Int) : MainOutcome :=
  { exitCode := 0, diagChildCode := childCode }

/-! ### Helper lemmas -/

theorem trimBuffer_length_le (b : List Nat) : (trimBuffer b).length ≤ 2048 := by
  unfold trimBuffer
  split
  next h => simp only [List.length_drop]; omega
  next h => omega

theorem enqueuePut_length_le (q : List (List Nat)) (d : List Nat) (k : Nat)
    (h : q.length ≤ 1000) : (enqueuePut q d k).length ≤ 1000 := by
  by_cases h1 : q.length < 1000
  · simp only [enqueuePut, if_pos h1, List.length_append, List.length_cons,
      List.length_nil]
    omega
  · by_cases h2 : (q.drop k).isEmpty = true
    · simp only [enqueuePut, if_neg h1, h2, if_true, List.length_drop]
      omega
    · simp only [enqueuePut, if_neg h1, h2, Bool.false_eq_true, if_false,
        List.length_append, List.length_drop, List.length_cons, List.length_nil]
      omega

theorem countAuto_append (l l' : List ChildWrite) :
    countAuto (l ++ l') = countAuto l + countAuto l' := by
  simp [countAuto, List.countP_append]

theorem countAuto_fwd (ws : List (List Nat)) :
    countAuto (ws.map ChildWrite.fwd) = 0 := by
  unfold countAuto
  rw [List.countP_eq_zero]
  intro a ha
  rcases List.mem_map.mp ha with ⟨w, _, rfl⟩
  simp

theorem countAuto_auto_one (b : List Nat) : countAuto [ChildWrite.auto b] = 1 := rfl

theorem handleStdin_comps (s : LoopState) (d : List Nat) (outs : List WriteOutcome) :
    (handleStdin s d outs).skipPermissions = s.skipPermissions
    ∧ (handleStdin s d outs).outputBuffer = s.outputBuffer
    ∧ (handleStdin s d outs).promptDetected = s.promptDetected
    ∧ (handleStdin s d outs).outputQueue = s.outputQueue
    ∧ (handleStdin s d outs).enqueuedLog = s.enqueuedLog
    ∧ countAuto (handleStdin s d outs).childWrites = countAuto s.childWrites := by
  unfold handleStdin
  split
  · exact ⟨rfl, rfl, rfl, rfl, rfl, rfl⟩
  · exact ⟨rfl, rfl, rfl, rfl, rfl, by simp [countAuto_append, countAuto_fwd]⟩

theorem handleChildData_cases (s : LoopState) (d : List Nat) (k : Nat) :
    handleChildData s d k = s
    ∨ (s.skipPermissions = true ∧ s.promptDetected = false
        ∧ handleChildData s d k =
          { s with promptDetected := true
                   diags := s.diags + 1
                   childWrites := s.childWrites ++ [ChildWrite.auto acceptSeq]
                   outputBuffer := [] })
    ∨ handleChildData s d k =
        { s with outputBuffer := trimBuffer (s.outputBuffer ++ d)
                 outputQueue := enqueuePut s.outputQueue d k
                 enqueuedLog := s.enqueuedLog
                   ++ (if putAdmits s.outputQueue k then [d] else [])
                 diags := s.diags + (if s.outputQueue.length < 1000 then 0 else 1) } := by
  by_cases hd : d.isEmpty = true
  · exact Or.inl (by simp [handleChildData, hd])
  · by_cases hc : (s.skipPermissions && !s.promptDetected
      && detectPrompt (s.outputBuffer ++ d)) = true
    · have hc2 := hc
      simp only [Bool.and_eq_true, Bool.not_eq_true'] at hc2
      refine Or.inr (Or.inl ⟨hc2.1.1, hc2.1.2, ?_⟩)
      simp [handleChildData, hd, hc]
    · refine Or.inr (Or.inr ?_)
      simp [handleChildData, hd, hc]

theorem stepEvent_fst_cases (s : LoopState) (e : Event) :
    (stepEvent s e).1 = s
    ∨ (∃ d k, (stepEvent s e).1 = handleChildData s d k)
    ∨ (∃ d outs, (stepEvent s e).1 = handleStdin s d outs)
    ∨ (stepEvent s e).1 = { s with diags := s.diags + 1 } := by
  cases e with
  | childRead r k =>
    cases r with
    | data d => exact Or.inr (Or.inl ⟨d, k, rfl⟩)
    | err en =>
      by_cases h5 : en = 5
      · exact Or.inl (by simp [stepEvent, stepChildRead, h5])
      · by_cases h11 : en = 11
        · exact Or.inl (by simp [stepEvent, stepChildRead, h5, h11])
        · exact Or.inr (Or.inr (Or.inr (by simp [stepEvent, stepChildRead, h5, h11])))
  | stdinRead d outs => exact Or.inr (Or.inr (Or.inl ⟨d, outs, rfl⟩))
  | stdinErr en =>
    by_cases h11 : en = 11
    · exact Or.inl (by simp [stepEvent, h11])
    · exact Or.inr (Or.inr (Or.inr (by simp [stepEvent, h11])))
  | timeout => exact Or.inl rfl

theorem runLoop_inv (P : LoopState → Prop)
    (hstep : ∀ s e, P s → P (stepEvent s e).1) :
    ∀ (es : List Event) (s : LoopState), P s → P (runLoop s es) := by
  intro es
  induction es with
  | nil => exact fun s h => h
  | cons e es ih =>
    intro s h
    unfold runLoop
    by_cases hb : (stepEvent s e).2
    · simp only [hb, if_true]
      exact hstep s e h
    · simp only [hb, if_false]
      exact ih _ (hstep s e h)

theorem writeLoop_flatten : ∀ (outs : List WriteOutcome) (data : List Nat),
    ((writeLoop data outs).1).flatten ++ (writeLoop data outs).2.1 = data := by
  intro outs
  induction outs with
  | nil => intro data; simp [writeLoop]
  | cons o os ih =>
    intro data
    by_cases hd : data.isEmpty = true
    · have hdnil : data = [] := List.isEmpty_iff.mp hd
      subst hdnil
      simp [writeLoop]
    · cases o with
      | wrote n =>
        simp only [writeLoop, hd, Bool.false_eq_true, if_false, List.flatten_cons,
          List.append_assoc, ih]
        exact List.take_append_drop _ data
      | werr e =>
        by_cases he : e = 11
        · subst he
          simpa only [writeLoop, hd, Bool.false_eq_true, if_false, if_pos rfl] using ih data
        · simp [writeLoop, hd, he]

theorem writeLoop_retry (data : List Nat) (outs : List WriteOutcome) :
    writeLoop data (WriteOutcome.werr 11 :: outs) = writeLoop data outs := by
  by_cases hd : data.isEmpty = true
  · have hdnil : data = [] := List.isEmpty_iff.mp hd
    subst hdnil
    cases outs <;> rfl
  · simp [writeLoop, hd]

theorem writeLoop_complete : ∀ (outs : List WriteOutcome) (data : List Nat),
    noHardErr outs = true → data.length ≤ totalWrote outs →
    (writeLoop data outs).2.1 = [] := by
  intro outs
  induction outs with
  | nil =>
    intro data _ hlen
    simp only [totalWrote, Nat.le_zero] at hlen
    simp [writeLoop, List.length_eq_zero.mp hlen]
  | cons o os ih =>
    intro data hne hlen
    by_cases hd : data.isEmpty = true
    · simp [writeLoop, hd]
    · cases o with
      | wrote n =>
        simp only [noHardErr, List.all_cons, Bool.and_eq_true] at hne
        simp only [totalWrote] at hlen
        simp only [writeLoop, hd, Bool.false_eq_true, if_false]
        apply ih _ hne.2
        simp only [List.length_drop]
        omega
      | werr e =>
        simp only [noHardErr, List.all_cons, Bool.and_eq_true, beq_iff_eq] at hne
        have he : e = 11 := hne.1
        subst he
        simp only [totalWrote] at hlen
        rw [writeLoop_retry]
        exact ih data hne.2 hlen

theorem stepEvent_queue_le (s : LoopState) (e : Event)
    (h : s.outputQueue.length ≤ 1000) :
    ((stepEvent s e).1).outputQueue.length ≤ 1000 := by
  rcases stepEvent_fst_cases s e with h1 | ⟨d, k, h1⟩ | ⟨d, outs, h1⟩ | h1
  · rw [h1]; exact h
  · rw [h1]
    rcases handleChildData_cases s d k with h2 | ⟨_, _, h2⟩ | h2 <;> rw [h2]
    · exact h
    · exact h
    · exact enqueuePut_length_le _ _ _ h
  · rw [h1, (handleStdin_comps s d outs).2.2.2.1]; exact h
  · rw [h1]; exact h

theorem stepEvent_buffer_le (s : LoopState) (e : Event)
    (h : s.outputBuffer.length ≤ 2048) :
    ((stepEvent s e).1).outputBuffer.length ≤ 2048 := by
  rcases stepEvent_fst_cases s e with h1 | ⟨d, k, h1⟩ | ⟨d, outs, h1⟩ | h1
  · rw [h1]; exact h
  · rw [h1]
    rcases handleChildData_cases s d k with h2 | ⟨_, _, h2⟩ | h2 <;> rw [h2]
    · exact h
    · exact Nat.zero_le _
    · exact trimBuffer_length_le _
  · rw [h1, (handleStdin_comps s d outs).2.1]; exact h
  · rw [h1]; exact h

theorem stepEvent_auto_le (s : LoopState) (e : Event)
    (h : countAuto s.childWrites + (if s.promptDetected then 0 else 1) ≤ 1) :
    countAuto ((stepEvent s e).1).childWrites
      + (if ((stepEvent s e).1).promptDetected then 0 else 1) ≤ 1 := by
  rcases stepEvent_fst_cases s e with h1 | ⟨d, k, h1⟩ | ⟨d, outs, h1⟩ | h1
  · rw [h1]; exact h
  · rw [h1]
    rcases handleChildData_cases s d k with h2 | ⟨_, hdet, h2⟩ | h2
    · rw [h2]; exact h
    · have h0 : countAuto s.childWrites = 0 := by
        rw [hdet] at h
        simp only [Bool.false_eq_true, if_false] at h
        omega
      rw [h2]
      simp [countAuto_append, countAuto_auto_one, h0]
    · rw [h2]; exact h
  · rw [h1]
    rw [(handleStdin_comps s d outs).2.2.2.2.2, (handleStdin_comps s d outs).2.2.1]
    exact h
  · rw [h1]; exact h

theorem stepEvent_fired_frozen (s : LoopState) (e : Event)
    (h : s.promptDetected = true) :
    ((stepEvent s e).1).promptDetected = true
    ∧ countAuto ((stepEvent s e).1).childWrites = countAuto s.childWrites := by
  rcases stepEvent_fst_cases s e with h1 | ⟨d, k, h1⟩ | ⟨d, outs, h1⟩ | h1
  · rw [h1]; exact ⟨h, rfl⟩
  · rw [h1]
    rcases handleChildData_cases s d k with h2 | ⟨_, hdet, h2⟩ | h2
    · rw [h2]; exact ⟨h, rfl⟩
    · rw [h] at hdet; exact absurd hdet (by simp)
    · rw [h2]; exact ⟨h, rfl⟩
  · rw [h1]
    exact ⟨(handleStdin_comps s d outs).2.2.1.trans h,
      (handleStdin_comps s d outs).2.2.2.2.2⟩
  · rw [h1]; exact ⟨h, rfl⟩

theorem stepEvent_skipfalse (s : LoopState) (e : Event)
    (h : s.skipPermissions = false ∧ countAuto s.childWrites = 0) :
    ((stepEvent s e).1).skipPermissions = false
    ∧ countAuto ((stepEvent s e).1).childWrites = 0 := by
  rcases stepEvent_fst_cases s e with h1 | ⟨d, k, h1⟩ | ⟨d, outs, h1⟩ | h1
  · rw [h1]; exact h
  · rw [h1]
    rcases handleChildData_cases s d k with h2 | ⟨hskip, _, h2⟩ | h2
    · rw [h2]; exact h
    · rw [h.1] at hskip; exact absurd hskip (by simp)
    · rw [h2]; exact h
  · rw [h1]
    exact ⟨(handleStdin_comps s d outs).1.trans h.1,
      ((handleStdin_comps s d outs).2.2.2.2.2).trans h.2⟩
  · rw [h1]; exact h

theorem containsSub_cons (a : Nat) (hay needle : List Nat) :
    containsSub (a :: hay) needle
      = (needle.isPrefixOf (a :: hay) || containsSub hay needle) := by
  simp [containsSub, List.tails_cons, List.any_cons]

theorem containsSub_append_left (pre hay needle : List Nat)
    (h : containsSub hay needle = true) :
    containsSub (pre ++ hay) needle = true := by
  induction pre with
  | nil => simpa using h
  | cons a pre ih =>
    rw [List.cons_append, containsSub_cons]
    simp [ih]

theorem detectPrompt_markers_after (pre : List Nat) :
    detectPrompt (pre ++ (marker1 ++ marker2 ++ marker3)) = true := by
  have h1 := containsSub_append_left pre (marker1 ++ marker2 ++ marker3) marker1
    (by decide)
  have h2 := containsSub_append_left pre (marker1 ++ marker2 ++ marker3) marker2
    (by decide)
  have h3 := containsSub_append_left pre (marker1 ++ marker2 ++ marker3) marker3
    (by decide)
  unfold detectPrompt
  rw [h1, h2, h3]
  rfl

theorem handleChildData_fire (s : LoopState) (data : List Nat) (k : Nat)
    (hskip : s.skipPermissions = true) (hdet : s.promptDetected = false)
    (hdata : data ≠ [])
    (hmatch : detectPrompt (s.outputBuffer ++ data) = true) :
    handleChildData s data k
      = { s with promptDetected := true
                 diags := s.diags + 1
                 childWrites := s.childWrites ++ [ChildWrite.auto acceptSeq]
                 outputBuffer := [] } := by
  have hde : ¬ data.isEmpty = true := by simp [hdata]
  have hc : (s.skipPermissions && !s.promptDetected
      && detectPrompt (s.outputBuffer ++ data)) = true := by
    simp [hskip, hdet, hmatch]
  simp [handleChildData, hde, hc]

/-! ### Claim theorems -/

/-- C1 counterexample: the child exits normally with code 1, yet the proxy
process's exit status is 0, not 1 - `main` never propagates
`claude_process.returncode` to its own exit status. -/
theorem c1_exit_code_not_propagated_cex :
    ¬ ((mainOutcome ExitPath.normalExit 1).exitCode = 1) := by decide

/-- C1 (amended): on normal completion the proxy always exits with status
0; the child's exit code is reported only in the final diagnostic record.
In particular, when the child exits with code 0 the proxy's exit status
coincides with it. -/
theorem c1_normal_exit_code (c : Int) :
    (mainOutcome ExitPath.normalExit c).exitCode = 0
    ∧ (mainOutcome ExitPath.normalExit c).diagChildCode = c
    ∧ (c = 0 → (mainOutcome ExitPath.normalExit c).exitCode = c) :=
  ⟨rfl, rfl, fun h => by rw [h]; rfl⟩

/-- Witness for C1: the child-exits-0 scenario, proxy reports 0. -/
theorem c1_normal_exit_code_witness :
    (mainOutcome ExitPath.normalExit 0).exitCode = 0 :=
  (c1_normal_exit_code 0).2.2 rfl

/-- C2: with skipPermissions enabled and no trigger fired, a chunk whose
arrival makes the prompt buffer contain all three marker substrings makes
the proxy write exactly one auto-acceptance sequence `2\n` to the child,
clear the prompt buffer, set the fired flag, and the chunk is neither
placed on the output queue nor ever admitted to it. -/
theorem c2_auto_accept_fires (s : LoopState) (data : List Nat) (k : Nat)
    (hskip : s.skipPermissions = true) (hdet : s.promptDetected = false)
    (hdata : data ≠ [])
    (hmatch : detectPrompt (s.outputBuffer ++ data) = true) :
    (handleChildData s data k).childWrites = s.childWrites ++ [ChildWrite.auto acceptSeq]
    ∧ (handleChildData s data k).outputBuffer = []
    ∧ (handleChildData s data k).promptDetected = true
    ∧ (handleChildData s data k).outputQueue = s.outputQueue
    ∧ (handleChildData s data k).enqueuedLog = s.enqueuedLog := by
  rw [handleChildData_fire s data k hskip hdet hdata hmatch]
  exact ⟨rfl, rfl, rfl, rfl, rfl⟩

/-- Witness for C2: from the initial state with skipPermissions on, a
single chunk carrying the three markers fires the trigger. -/
theorem c2_auto_accept_fires_witness :
    (handleChildData (initState true) (marker1 ++ marker2 ++ marker3) 0).childWrites
        = (initState true).childWrites ++ [ChildWrite.auto acceptSeq]
    ∧ (handleChildData (initState true) (marker1 ++ marker2 ++ marker3) 0).outputBuffer = []
    ∧ (handleChildData (initState true) (marker1 ++ marker2 ++ marker3) 0).promptDetected = true
    ∧ (handleChildData (initState true) (marker1 ++ marker2 ++ marker3) 0).outputQueue
        = (initState true).outputQueue
    ∧ (handleChildData (initState true) (marker1 ++ marker2 ++ marker3) 0).enqueuedLog
        = (initState true).enqueuedLog :=
  c2_auto_accept_fires (initState true) (marker1 ++ marker2 ++ marker3) 0
    rfl rfl (by decide) (by decide)

/-- C3 counterexample: the newest chunk can be silently lost.  With the
queue full at the failed put and the dispatcher draining all 1000
entries during the `log_debug` of line 123 (it runs concurrently for the
whole session), `get_nowait` raises `Empty`, the bare `except` at lines
128-129 swallows it, and the chunk is discarded: it is not in the queue
afterwards. -/
theorem c3_newest_lost_cex :
    enqueuePut (List.replicate 1000 ([] : List Nat)) [7] 1000 = []
    ∧ ¬ [7] ∈ enqueuePut (List.replicate 1000 ([] : List Nat)) [7] 1000 := by
  have hdrop : (List.replicate 1000 ([] : List Nat)).drop 1000 = [] := by
    have h := List.drop_length (List.replicate 1000 ([] : List Nat))
    rwa [List.length_replicate] at h
  have h : enqueuePut (List.replicate 1000 ([] : List Nat)) [7] 1000 = [] := by
    unfold enqueuePut
    rw [if_neg (by rw [List.length_replicate]; omega), hdrop]
    simp
  exact ⟨h, by rw [h]; simp⟩

/-- C3 (amended): the enqueue of lines 118-129 never blocks the loop and
the queue never exceeds its 1000-entry capacity (also over every run).
When the queue is full and the dispatcher has not completely drained it
between the failed put and the `get_nowait`, the oldest remaining entry
is dropped and the newest chunk is admitted at the back; but if the
dispatcher drained the queue entirely in that window, `get_nowait`
raises `Empty`, the bare `except` swallows it, and the newest chunk is
silently discarded. -/
theorem c3_queue_overflow :
    (∀ (q : List (List Nat)) (d : List Nat), q.length = 1000 →
        enqueuePut q d 0 = q.drop 1 ++ [d])
    ∧ (∀ (q : List (List Nat)) (d : List Nat) (k : Nat),
        ¬ q.length < 1000 → (q.drop k).isEmpty = false →
        enqueuePut q d k = (q.drop k).drop 1 ++ [d])
    ∧ (∀ (q : List (List Nat)) (d : List Nat) (k : Nat),
        q.length < 1000 ∨ (q.drop k).isEmpty = false →
        (enqueuePut q d k).getLast? = some d)
    ∧ (∀ (q : List (List Nat)) (d : List Nat) (k : Nat),
        ¬ q.length < 1000 → (q.drop k).isEmpty = true →
        enqueuePut q d k = q.drop k)
    ∧ (∀ (q : List (List Nat)) (d : List Nat) (k : Nat), q.length ≤ 1000 →
        (enqueuePut q d k).length ≤ 1000)
    ∧ (∀ (skip : Bool) (es : List Event),
        (runLoop (initState skip) es).outputQueue.length ≤ 1000) := by
  refine ⟨?_, ?_, ?_, ?_, ?_, ?_⟩
  · intro q d h
    have hne : q ≠ [] := by
      intro hq
      rw [hq] at h
      simp at h
    have hlt : ¬ q.length < 1000 := by omega
    simp [enqueuePut, hlt, List.drop_zero, List.isEmpty_iff, hne]
  · intro q d k h1 h2
    simp [enqueuePut, h1, h2]
  · intro q d k h
    rcases h with h | h
    · simp [enqueuePut, h]
    · by_cases hl : q.length < 1000
      · simp [enqueuePut, hl]
      · simp [enqueuePut, hl, h]
  · intro q d k h1 h2
    simp [enqueuePut, h1, h2]
  · exact fun q d k h => enqueuePut_length_le q d k h
  · intro skip es
    exact runLoop_inv (fun s => s.outputQueue.length ≤ 1000) stepEvent_queue_le
      es _ (by simp [initState])

/-- Witness for C3 (amended): a full queue of 1000 entries, with no
dispatcher interference, drops its oldest entry and admits the new
chunk. -/
theorem c3_queue_overflow_witness :
    enqueuePut (List.replicate 1000 ([] : List Nat)) [7] 0
      = (List.replicate 1000 ([] : List Nat)).drop 1 ++ [[7]] :=
  c3_queue_overflow.1 _ _ (by rw [List.length_replicate])

/-- C4: stdin forwarding: the slices written to the child concatenate
with the never-written suffix exactly to the input chunk (order kept, no
duplication); an EAGAIN outcome retries the identical remaining suffix;
when no hard write error occurs and the writes accept enough bytes, the
whole chunk is delivered; and the loop's written slices are appended to
the child-write log in order. -/
theorem c4_stdin_exact :
    (∀ (data : List Nat) (outs : List WriteOutcome),
        ((writeLoop data outs).1).flatten ++ (writeLoop data outs).2.1 = data)
    ∧ (∀ (data : List Nat) (outs : List WriteOutcome),
        writeLoop data (WriteOutcome.werr 11 :: outs) = writeLoop data outs)
    ∧ (∀ (data : List Nat) (outs : List WriteOutcome),
        noHardErr outs = true → data.length ≤ totalWrote outs →
        (writeLoop data outs).2.1 = [])
    ∧ (∀ (s : LoopState) (d : List Nat) (outs : List WriteOutcome), d ≠ [] →
        (handleStdin s d outs).childWrites
          = s.childWrites ++ ((writeLoop d outs).1).map ChildWrite.fwd) := by
  refine ⟨fun data outs => writeLoop_flatten outs data,
    fun data outs => writeLoop_retry data outs,
    fun data outs h1 h2 => writeLoop_complete outs data h1 h2, ?_⟩
  intro s d outs hd
  have hde : ¬ d.isEmpty = true := by simp [hd]
  simp [handleStdin, hde]

/-- Witness for C4: a 3-byte chunk is fully delivered across a partial
write, an EAGAIN retry and a final write. -/
theorem c4_stdin_exact_witness :
    (writeLoop [1, 2, 3]
      [WriteOutcome.wrote 2, WriteOutcome.werr 11, WriteOutcome.wrote 5]).2.1 = [] :=
  c4_stdin_exact.2.2.1 [1, 2, 3]
    [WriteOutcome.wrote 2, WriteOutcome.werr 11, WriteOutcome.wrote 5]
    (by decide) (by decide)

/-- C5: single shot: over every run from the initial state at most one
auto-acceptance is ever written to the child; and once the fired flag is
set it stays set and no further auto-acceptance is written for the rest
of the run, whatever the child outputs. -/
theorem c5_single_shot :
    (∀ (skip : Bool) (es : List Event),
        countAuto (runLoop (initState skip) es).childWrites ≤ 1)
    ∧ (∀ (s : LoopState) (es : List Event), s.promptDetected = true →
        (runLoop s es).promptDetected = true
        ∧ countAuto (runLoop s es).childWrites = countAuto s.childWrites) := by
  constructor
  · intro skip es
    have h := runLoop_inv
      (fun s => countAuto s.childWrites + (if s.promptDetected then 0 else 1) ≤ 1)
      stepEvent_auto_le es (initState skip) (by simp [initState, countAuto])
    omega
  · intro s es h
    exact runLoop_inv
      (fun s' => s'.promptDetected = true
        ∧ countAuto s'.childWrites = countAuto s.childWrites)
      (fun s' e hp => ⟨(stepEvent_fired_frozen s' e hp.1).1,
        ((stepEvent_fired_frozen s' e hp.1).2).trans hp.2⟩)
      es s ⟨h, rfl⟩

/-- Witness for C5: in a fired state, a further chunk carrying all three
markers causes no further auto-acceptance. -/
theorem c5_single_shot_witness :
    (runLoop firedState
        [Event.childRead (ReadResult.data (marker1 ++ marker2 ++ marker3)) 0]).promptDetected
      = true
    ∧ countAuto (runLoop firedState
        [Event.childRead (ReadResult.data (marker1 ++ marker2 ++ marker3)) 0]).childWrites
      = countAuto firedState.childWrites :=
  c5_single_shot.2 firedState
    [Event.childRead (ReadResult.data (marker1 ++ marker2 ++ marker3)) 0] rfl

/-- C6: with skipPermissions disabled, no auto-response is ever written
over any run, and every nonempty child-output chunk is handled purely by
buffering and enqueueing: write log untouched, chunk enqueued with
drop-oldest policy, buffer appended and trimmed, fired flag unchanged. -/
theorem c6_no_auto_when_disabled :
    (∀ (es : List Event),
        countAuto (runLoop (initState false) es).childWrites = 0)
    ∧ (∀ (s : LoopState) (d : List Nat) (k : Nat),
        s.skipPermissions = false → d ≠ [] →
        (handleChildData s d k).childWrites = s.childWrites
        ∧ (handleChildData s d k).outputQueue = enqueuePut s.outputQueue d k
        ∧ (handleChildData s d k).enqueuedLog
            = s.enqueuedLog ++ (if putAdmits s.outputQueue k then [d] else [])
        ∧ (handleChildData s d k).outputBuffer = trimBuffer (s.outputBuffer ++ d)
        ∧ (handleChildData s d k).promptDetected = s.promptDetected) := by
  constructor
  · intro es
    exact (runLoop_inv
      (fun s => s.skipPermissions = false ∧ countAuto s.childWrites = 0)
      stepEvent_skipfalse es (initState false) ⟨rfl, rfl⟩).2
  · intro s d k hskip hd
    have hde : ¬ d.isEmpty = true := by simp [hd]
    have hc : (s.skipPermissions && !s.promptDetected
        && detectPrompt (s.outputBuffer ++ d)) = false := by
      simp [hskip]
    simp [handleChildData, hde, hc]

/-- Witness for C6: with the flag off, a chunk carrying all three markers
is simply enqueued and produces no write to the child. -/
theorem c6_no_auto_when_disabled_witness :
    (handleChildData (initState false) (marker1 ++ marker2 ++ marker3) 0).childWrites
        = (initState false).childWrites
    ∧ (handleChildData (initState false) (marker1 ++ marker2 ++ marker3) 0).outputQueue
        = enqueuePut (initState false).outputQueue (marker1 ++ marker2 ++ marker3) 0
    ∧ (handleChildData (initState false) (marker1 ++ marker2 ++ marker3) 0).enqueuedLog
        = (initState false).enqueuedLog
          ++ (if putAdmits (initState false).outputQueue 0
              then [marker1 ++ marker2 ++ marker3] else [])
    ∧ (handleChildData (initState false) (marker1 ++ marker2 ++ marker3) 0).outputBuffer
        = trimBuffer ((initState false).outputBuffer ++ (marker1 ++ marker2 ++ marker3))
    ∧ (handleChildData (initState false) (marker1 ++ marker2 ++ marker3) 0).promptDetected
        = (initState false).promptDetected :=
  c6_no_auto_when_disabled.2 (initState false) (marker1 ++ marker2 ++ marker3) 0
    rfl (by decide)

/-- C7 counterexample: with the trigger already fired, a further child
chunk is still appended to the prompt buffer - line 98
(`output_buffer += data`) runs before the fired-flag check, so the claim
that no further bytes are ever appended to the buffer is false. -/
theorem c7_buffer_appended_after_fire_cex :
    (handleChildData firedState [65] 0).outputBuffer ≠ [] := by decide

/-- C7 (amended): after the trigger fires the detector never scans again
and never writes again: the child-write log is unchanged by child output,
the fired flag stays set, and no auto-response is added for the rest of
the run; the prompt buffer however keeps accumulating bytes under the
append-and-trim discipline. -/
theorem c7_detector_inactive_after_fire (s : LoopState) (d : List Nat) (k : Nat)
    (h : s.promptDetected = true) :
    (handleChildData s d k).childWrites = s.childWrites
    ∧ (handleChildData s d k).promptDetected = true
    ∧ (d ≠ [] → (handleChildData s d k).outputBuffer = trimBuffer (s.outputBuffer ++ d))
    ∧ ∀ (es : List Event), countAuto (runLoop s es).childWrites = countAuto s.childWrites := by
  have hc : (s.skipPermissions && !s.promptDetected
      && detectPrompt (s.outputBuffer ++ d)) = false := by
    simp [h]
  refine ⟨?_, ?_, ?_, ?_⟩
  · by_cases hde : d.isEmpty = true
    · simp [handleChildData, hde]
    · simp [handleChildData, hde, hc]
  · by_cases hde : d.isEmpty = true
    · simpa [handleChildData, hde] using h
    · simp [handleChildData, hde, hc, h]
  · intro hdne
    have hde : ¬ d.isEmpty = true := by simp [hdne]
    simp [handleChildData, hde, hc]
  · intro es
    exact (runLoop_inv
      (fun s' => s'.promptDetected = true
        ∧ countAuto s'.childWrites = countAuto s.childWrites)
      (fun s' e hp => ⟨(stepEvent_fired_frozen s' e hp.1).1,
        ((stepEvent_fired_frozen s' e hp.1).2).trans hp.2⟩)
      es s ⟨h, rfl⟩).2

/-- Witness for C7 (amended): in a fired state a further chunk leaves the
write log untouched and lands in the (trimmed) buffer. -/
theorem c7_detector_inactive_after_fire_witness :
    (handleChildData firedState [65] 0).childWrites = firedState.childWrites
    ∧ (handleChildData firedState [65] 0).promptDetected = true
    ∧ ([65] ≠ ([] : List Nat) →
        (handleChildData firedState [65] 0).outputBuffer
          = trimBuffer (firedState.outputBuffer ++ [65]))
    ∧ ∀ (es : List Event),
        countAuto (runLoop firedState es).childWrites = countAuto firedState.childWrites :=
  c7_detector_inactive_after_fire firedState [65] 0 rfl

/-- C8: the prompt buffer is a bounded rolling window: when a nonempty
chunk that does not fire the trigger pushes the buffer past 2048 bytes,
the buffer is cut to exactly its most recent 1024 bytes; and over every
run of the loop the buffer never exceeds 2048 bytes. -/
theorem c8_buffer_window :
    (∀ (s : LoopState) (d : List Nat) (k : Nat), d ≠ [] →
        (s.skipPermissions && !s.promptDetected
          && detectPrompt (s.outputBuffer ++ d)) = false →
        2048 < (s.outputBuffer ++ d).length →
        (handleChildData s d k).outputBuffer
            = (s.outputBuffer ++ d).drop ((s.outputBuffer ++ d).length - 1024)
        ∧ (handleChildData s d k).outputBuffer.length = 1024)
    ∧ (∀ (skip : Bool) (es : List Event),
        (runLoop (initState skip) es).outputBuffer.length ≤ 2048) := by
  constructor
  · intro s d k hd hc hlen
    have hde : ¬ d.isEmpty = true := by simp [hd]
    have hbuf : (handleChildData s d k).outputBuffer = trimBuffer (s.outputBuffer ++ d) := by
      simp [handleChildData, hde, hc]
    rw [hbuf, trimBuffer, if_pos hlen]
    refine ⟨rfl, ?_⟩
    simp only [List.length_drop]
    omega
  · intro skip es
    exact runLoop_inv (fun s => s.outputBuffer.length ≤ 2048) stepEvent_buffer_le
      es _ (by simp [initState])

/-- Witness for C8: a 2049-byte chunk with skipPermissions off is trimmed
to the most recent 1024 bytes. -/
theorem c8_buffer_window_witness :
    (handleChildData (initState false) (List.replicate 2049 0) 0).outputBuffer
        = ((initState false).outputBuffer ++ List.replicate 2049 0).drop
            (((initState false).outputBuffer ++ List.replicate 2049 0).length - 1024)
    ∧ (handleChildData (initState false) (List.replicate 2049 0) 0).outputBuffer.length
        = 1024 :=
  c8_buffer_window.1 (initState false) (List.replicate 2049 0) 0
    (by decide) rfl
    (by dsimp only [initState]
        rw [List.nil_append, List.length_replicate]
        omega)

/-- C9: every exit path of the loop (normal, interrupt, unexpected
exception) runs the finalization sequence exactly once, in order: push
the shutdown sentinel, join the dispatcher with a 1-second timeout, close
the master handle, wait on the child, emit one diagnostic record carrying
the child's exit code. -/
theorem c9_teardown_every_path :
    ∀ (p : ExitPath) (c : Int),
      shutdownTrace p
          = (if p = ExitPath.normalExit then [] else [ShutAct.terminateChild])
            ++ finallyActions
      ∧ (shutdownTrace p).count ShutAct.putSentinel = 1
      ∧ (shutdownTrace p).count (ShutAct.joinWriter 1) = 1
      ∧ (shutdownTrace p).count ShutAct.closeMaster = 1
      ∧ (shutdownTrace p).count ShutAct.waitChild = 1
      ∧ (shutdownTrace p).count ShutAct.logExitCode = 1
      ∧ (mainOutcome p c).diagChildCode = c := by
  intro p c
  cases p <;>
    exact ⟨by decide, by decide, by decide, by decide, by decide, by decide, rfl⟩

/-- C10: a zero-byte read from the child is a complete no-op (state
untouched, loop continues, not end-of-stream); the read path breaks the
loop exactly for errno 5 (EIO), and errno 11 (EAGAIN) is swallowed with
the state untouched. -/
theorem c10_empty_read_noop :
    ∀ (s : LoopState) (k : Nat),
      stepChildRead s k (ReadResult.data []) = (s, false)
      ∧ stepChildRead s k (ReadResult.err 5) = (s, true)
      ∧ stepChildRead s k (ReadResult.err 11) = (s, false)
      ∧ ∀ (en : Nat), (stepChildRead s k (ReadResult.err en)).2 = decide (en = 5) := by
  intro s k
  refine ⟨rfl, rfl, rfl, fun en => ?_⟩
  by_cases h5 : en = 5
  · simp [stepChildRead, h5]
  · by_cases h11 : en = 11 <;> simp [stepChildRead, h5, h11]

/-- C8 counterexample: a chunk that both completes the marker match and
pushes the buffer past 2048 bytes fires the trigger, and the buffer is
then cleared (line 111) rather than truncated to its most recent 1024
bytes - the trim at lines 114-116 is skipped by the `continue`. -/
theorem c8_overflow_fire_cex :
    2048 < ((List.replicate 2030 32 : List Nat)
        ++ (marker1 ++ marker2 ++ marker3)).length
    ∧ (handleChildData
        { skipPermissions := true, outputBuffer := List.replicate 2030 32,
          promptDetected := false, outputQueue := [], enqueuedLog := [],
          childWrites := [], diags := 0 }
        (marker1 ++ marker2 ++ marker3) 0).outputBuffer
      ≠ ((List.replicate 2030 32 : List Nat) ++ (marker1 ++ marker2 ++ marker3)).drop
          (((List.replicate 2030 32 : List Nat)
              ++ (marker1 ++ marker2 ++ marker3)).length - 1024) := by
  have hm : (marker1 ++ marker2 ++ marker3).length = 50 := by decide
  constructor
  · rw [List.length_append, List.length_replicate, hm]
    omega
  · have hbuf : (handleChildData
        { skipPermissions := true, outputBuffer := List.replicate 2030 32,
          promptDetected := false, outputQueue := [], enqueuedLog := [],
          childWrites := [], diags := 0 }
        (marker1 ++ marker2 ++ marker3) 0).outputBuffer = [] := by
      rw [handleChildData_fire
        { skipPermissions := true, outputBuffer := List.replicate 2030 32,
          promptDetected := false, outputQueue := [], enqueuedLog := [],
          childWrites := [], diags := 0 }
        (marker1 ++ marker2 ++ marker3) 0 rfl rfl (by decide)
        (detectPrompt_markers_after (List.replicate 2030 32))]
    rw [hbuf]
    intro hEq
    have hlen := congrArg List.length hEq
    simp only [List.length_nil, List.length_drop, List.length_append,
      List.length_replicate, hm] at hlen
    omega
